import Mathlib

/-!
Verification of the metrics-comparison / regression-classification logic of the
low-latency-performance-workshop scripts.

The numeric values are modelled as rationals (`ℚ`): all the arithmetic in the
scripts is field arithmetic on finite decimal inputs, so every identity proved
here holds exactly, which subsumes the floating-point tolerance in the spec of 1e-9.
Python dictionaries are modelled as insertion-ordered association lists
(`List (String × α)`): assignment replaces the first binding in place or appends
a new one at the end, and lookup returns the first binding, exactly as CPython
dictionaries behave.
-/

namespace Workshop

/-- First-match lookup in an association list, the model of `d[k]` / `d.get(k)`
on a Python dict. -/
def alookup {α : Type} : List (String × α) → String → Option α
  | [], _ => none
  | (k, v) :: rest, key => if k = key then some v else alookup rest key

/-- Python dict assignment `d[k] = v`: replace the first binding of `k` in
place, or append a new binding at the end. -/
def assocSet {α : Type} : List (String × α) → String → α → List (String × α)
  | [], k, v => [(k, v)]
  | (k', v') :: rest, k, v =>
      if k' = k then (k, v) :: rest else (k', v') :: assocSet rest k v

/-- The five numeric fields parsed out of one quantile measurement object
(`analyze-performance.py`, `load_metrics`): any field missing from the JSON
object defaults to 0 at parse time. -/
structure MetricRecord where
  P50 : ℚ
  P95 : ℚ
  P99 : ℚ
  avg : ℚ
  max : ℚ
  deriving DecidableEq, Repr

/-- A MetricSet: condition name (the `quantileName`) to its five-field record. -/
abbrev MetricSet := List (String × MetricRecord)

/-- The field names the pod-latency comparison loop iterates over
(the loop in `compare_tests` iterates over P50, P95, P99 and avg). -/
inductive Field where
  | P50 | P95 | P99 | avg | maxF
  deriving DecidableEq, Repr

/-- Field projection, the model of `metrics[field]`. -/
def MetricRecord.get (r : MetricRecord) : Field → ℚ
  | .P50 => r.P50
  | .P95 => r.P95
  | .P99 => r.P99
  | .avg => r.avg
  | .maxF => r.max

/-- The fields requested by `compare_tests` for the per-condition rows. -/
def compareFields : List Field := [.P50, .P95, .P99, .avg]

/-- The improvement-policy classification of `compare_tests`
(`analyze-performance.py` lines 288–300): the if/elif chain on the signed
improvement percentage. -/
def classifyImprovement (x : ℚ) : String :=
  if x > 20 then "🚀 Excellent"
  else if x > 5 then "✅ Better"
  else if x > -5 then "➖ Similar"
  else "⚠️ Worse"

/-- One printed row of the pod-latency comparison table. -/
structure ComparisonRow where
  condition : String
  field : Field
  baselineVal : ℚ
  tunedVal : ℚ
  improvement : ℚ
  status : String
  deriving DecidableEq, Repr

/-- Body of the innermost comparison loop (`analyze-performance.py`
lines 282–314): a row is emitted only when the baseline value is strictly
positive; the improvement is `(baseline - tuned) / baseline * 100`. -/
def mkRow (cond : String) (f : Field) (bv tv : ℚ) : Option ComparisonRow :=
  if 0 < bv then
    some ⟨cond, f, bv, tv, ((bv - tv) / bv) * 100,
          classifyImprovement (((bv - tv) / bv) * 100)⟩
  else none

/-- Rows of one condition of the baseline: the empty list when the condition
is absent from the tuned set. -/
def condRows (tuned : MetricSet) (p : String × MetricRecord) :
    List ComparisonRow :=
  ((alookup tuned p.1).map fun tm =>
      compareFields.filterMap fun f => mkRow p.1 f ((p.2).get f) (tm.get f)).getD
    []

/-- The pod-latency comparison loop of `compare_tests`
(`analyze-performance.py` lines 276–314): for each condition of the baseline
that is also in the tuned set, for each of the four requested fields, emit a
row when the baseline value is strictly positive. -/
def compareRows (baseline tuned : MetricSet) : List ComparisonRow :=
  baseline.flatMap (condRows tuned)

/-- The two divisions of the "Key Improvements" block
(`analyze-performance.py` lines 321–322): the baseline `Ready` P99 and avg
values are divided by *without* a zero guard — a `ZeroDivisionError` there
aborts the call, modelled as `none`. -/
def keyPair (rb rt : MetricRecord) : Option (ℚ × ℚ) :=
  if rb.P99 = 0 then none
  else if rb.avg = 0 then none
  else some (((rb.P99 - rt.P99) / rb.P99) * 100,
             ((rb.avg - rt.avg) / rb.avg) * 100)

/-- The "Key Improvements" block (`analyze-performance.py` lines 317–331):
when the `Ready` record is present on both sides the two divisions run
(outer `none` models the exception); otherwise the block is skipped
(inner `none`) and the call still succeeds. -/
def keyImprovements (orb ort : Option MetricRecord) :
    Option (Option (ℚ × ℚ)) :=
  (orb.bind fun rb => ort.map fun rt => keyPair rb rt).elim (some none)
    fun kp => kp.map some

/-- The whole `compare_tests` computation (`analyze-performance.py`
lines 259–352): the per-condition rows followed by the Key Improvements
block. `none` models the call raising an exception. -/
def compare_tests (baseline tuned : MetricSet) :
    Option (List ComparisonRow × Option (ℚ × ℚ)) :=
  (keyImprovements (alookup baseline "Ready") (alookup tuned "Ready")).map
    fun ki => (compareRows baseline tuned, ki)

/-! ### Regression detector (`module06-performance-regression-detector.py`) -/

/-- Latency mapping of the detector: percentile key (`"p50"`/`"p95"`/`"p99"`)
to its value, as produced by `extract_latency_metrics`. -/
abbrev Latencies := List (String × ℚ)

/-- Detector metrics: metric-type name to its latency mapping. -/
abbrev Metrics := List (String × Latencies)

/-- Model of `RegressionDetector.calculate_regression` (lines 149–153): percentage
change `(current - baseline) / baseline * 100`, returning 0.0 when the
baseline value is 0. -/
def calculate_regression (baselineValue currentValue : ℚ) : ℚ :=
  if baselineValue = 0 then 0
  else ((currentValue - baselineValue) / baselineValue) * 100

/-- The status chain of `RegressionDetector.compare_metrics` (lines 181–197),
with the terminal colour codes stripped from the labels. -/
def regStatus (threshold regression : ℚ) : String :=
  if regression > threshold then "🚨 REGRESSION"
  else if regression > threshold / 2 then "⚠️ WARNING"
  else if regression < -5 then "✅ IMPROVED"
  else "✅ OK"

/-- One printed comparison line of the detector. -/
structure RegRow where
  metricType : String
  percentile : String
  baselineVal : ℚ
  currentVal : ℚ
  regression : ℚ
  status : String
  deriving DecidableEq, Repr

/-- The percentiles `compare_metrics` iterates over (line 173). -/
def regPercentiles : List String := ["p50", "p95", "p99"]

/-- Body of the percentile loop of `compare_metrics` (lines 173–200): a line
is emitted only when the percentile is present in both the baseline and the
current latency mappings. -/
def regLine (threshold : ℚ) (mt pct : String) (obv ocv : Option ℚ) :
    Option RegRow :=
  obv.bind fun bv => ocv.map fun cv =>
    ⟨mt, pct, bv, cv, calculate_regression bv cv,
     regStatus threshold (calculate_regression bv cv)⟩

/-- Lines of one metric type of the current metrics: the empty list when the
type has no baseline (only an info line is printed in that case). -/
def typeLines (threshold : ℚ) (baselineMetrics : Metrics)
    (p : String × Latencies) : List RegRow :=
  ((alookup baselineMetrics p.1).map fun baseLat =>
      regPercentiles.filterMap fun pct =>
        regLine threshold p.1 pct (alookup baseLat pct) (alookup p.2 pct)).getD
    []

/-- Model of `RegressionDetector.compare_metrics` (lines 155–202): for each
metric type of the current metrics that also has a baseline, for each of
p50/p95/p99 present on both sides, emit a comparison line with its regression
percentage and status. -/
def compare_metrics (threshold : ℚ) (baselineMetrics current : Metrics) :
    List RegRow :=
  current.flatMap (typeLines threshold baselineMetrics)

/-- The list `self.regressions_found` accumulated by `compare_metrics`: the
comparison lines whose regression exceeds the threshold (line 182: the same
condition that sets the `🚨 REGRESSION` status appends to the list). -/
def regressions_found (threshold : ℚ) (baselineMetrics current : Metrics) :
    List RegRow :=
  (compare_metrics threshold baselineMetrics current).filter
    fun row => threshold < row.regression

/-- Model of `RegressionDetector.run_detection` (lines 254–284): `false` when no current
metrics were loaded; `true` when `--save-baseline` was requested (after
saving); `false` when no baseline could be loaded; otherwise the comparison
runs and the result is `true` exactly when no regression was recorded.
`baseline` is the metrics mapping of the loaded baseline file, `none` when the
file is absent or unreadable. -/
def run_detection (threshold : ℚ) (current : Metrics) (saveBaseline : Bool)
    (baseline : Option Metrics) : Bool :=
  if current = [] then false
  else if saveBaseline then true
  else
    match baseline with
    | none => false
    | some bm => regressions_found threshold bm current = []

/-- Model of `main` (lines 360–368): `sys.exit(0 if success else 1)`. -/
def exit_code (threshold : ℚ) (current : Metrics) (saveBaseline : Bool)
    (baseline : Option Metrics) : Nat :=
  if run_detection threshold current saveBaseline baseline then 0 else 1

/-! ### Latency extraction of the detector -/

/-- Whether the first character list is a prefix of the second. -/
def charsPrefixOf : List Char → List Char → Bool
  | [], _ => true
  | _ :: _, [] => false
  | a :: as, b :: bs => a = b && charsPrefixOf as bs

/-- Whether the first character list occurs contiguously in the second. -/
def charsInfixOf (needle : List Char) : List Char → Bool
  | [] => charsPrefixOf needle []
  | b :: bs => charsPrefixOf needle (b :: bs) || charsInfixOf needle bs

/-- Python substring test `needle in haystack` on strings. -/
def pyContains (needle haystack : String) : Bool :=
  charsInfixOf needle.toList haystack.toList

/-- Whether a `quantileName` string matches any arm of the if/elif chain of
`extract_latency_metrics`: it contains P99, P95 or P50 as a substring. -/
def percentileMatch (qn : String) : Bool :=
  pyContains "P99" qn || pyContains "P95" qn || pyContains "P50" qn

/-- One JSON object of a measurement array as the detector reads it: the keys
it may touch are `quantileName` (absent modelled as `none`), `value`
(read through `item.get("value", 0)`), and the documented percentile fields
`P50`/`P95`/`P99`, which `extract_latency_metrics` never reads. -/
structure MeasurementItem where
  quantileName : Option String
  value : Option ℚ
  P50 : Option ℚ
  P95 : Option ℚ
  P99 : Option ℚ
  deriving DecidableEq, Repr

/-- One step of the extraction loop of
`RegressionDetector.extract_latency_metrics` (lines 98–106): an item
contributes `item.get("value", 0)` under key `p99`/`p95`/`p50` exactly when
its `quantileName` string contains the substring `P99`/`P95`/`P50`
(first match of the if/elif chain wins). -/
def extractStep (lat : Latencies) (item : MeasurementItem) : Latencies :=
  match item.quantileName with
  | none => lat
  | some qn =>
      if pyContains "P99" qn then assocSet lat "p99" (item.value.getD 0)
      else if pyContains "P95" qn then assocSet lat "p95" (item.value.getD 0)
      else if pyContains "P50" qn then assocSet lat "p50" (item.value.getD 0)
      else lat

/-- Model of `RegressionDetector.extract_latency_metrics` on the list format
(lines 93–106): fold the extraction step over the array. -/
def extract_latency_metrics (items : List MeasurementItem) : Latencies :=
  items.foldl extractStep []

/-- The per-metric-type gate of `RegressionDetector.load_current_metrics`
(lines 136–139): the metric type enters `current_metrics` only when the
extracted latency mapping is non-empty. -/
def loadMetricType (items : List MeasurementItem) : Option Latencies :=
  let latencies := extract_latency_metrics items
  if latencies = [] then none else some latencies

/-! ### Metric loading of `analyze-performance.py` -/

/-- One JSON object of a quantile-measurement file as
`PerformanceAnalyzer.load_metrics` reads it: the truthiness test
`item.get("quantileName")` is modelled by treating a missing or empty
`quantileName` as `""`; the five numeric fields carry their parse-time
defaults of 0. -/
structure RawItem where
  quantileName : String
  record : MetricRecord
  deriving DecidableEq, Repr

/-- One step of the loading loop (`analyze-performance.py` lines 64–72):
an item with truthy `quantileName` is assigned into the results dict. -/
def insertItem (m : MetricSet) (item : RawItem) : MetricSet :=
  if item.quantileName = "" then m
  else assocSet m item.quantileName item.record

/-- Folding the item array of one file into the accumulated results dict. -/
def loadFile (m : MetricSet) (items : List RawItem) : MetricSet :=
  items.foldl insertItem m

/-- The pod-latency part of `PerformanceAnalyzer.load_metrics`
(lines 60–74): the loop `for file in metrics_path.glob(...)` runs over
*every* matching file and folds the items of each one into the same dict. `files`
is the glob match list in iteration order. -/
def load_metrics (files : List (List RawItem)) : MetricSet :=
  files.foldl loadFile []

/-- Python `max(files, key=...)` over a non-empty list, with the key modelled
as the first component (the file modification time): scan left to right and
replace the current best only on a strictly greater key, so the first
maximal element wins, exactly as Python `max` behaves. -/
def pyMax {α : Type} (first : ℕ × α) (rest : List (ℕ × α)) : ℕ × α :=
  rest.foldl (fun best f => if best.1 < f.1 then f else best) first

/-- The per-metric-type file selection of
`RegressionDetector.load_current_metrics` (lines 130–140): when no file
matches the glob pattern the metric type is skipped; otherwise ONLY the most
recently modified match — `max(files, key=mtime)` — is parsed and extracted,
and the extraction gate of `loadMetricType` applies to that single file.
Files are (mtime, parsed contents) pairs in glob order. -/
def load_current_type (files : List (ℕ × List MeasurementItem)) :
    Option Latencies :=
  match files with
  | [] => none
  | first :: rest => loadMetricType (pyMax first rest).2

/-- Model of `VMIPerformanceAnalyzer.load_vmi_metrics`
(`module05-vmi-analyzer.py` lines 52–66): when at least one file matches the
glob, ONLY the first match (`vmi_files[0]`) is read, and its items are folded
into the mapping by the same quantile loop as `load_metrics`; the remaining
matches are ignored. -/
def load_vmi_metrics (files : List (List RawItem)) : MetricSet :=
  match files with
  | [] => []
  | f :: _ => loadFile [] f

/-! ### Baseline persistence (`save_baseline` / `load_baseline`) -/

/-- Parsed JSON values, the common representation of what `json.dump` writes
and `json.load` reads back: for the finite numeric and string data handled
here the dump/load text round trip is the identity on this representation. -/
inductive Json where
  | null : Json
  | bool : Bool → Json
  | num : ℚ → Json
  | str : String → Json
  | arr : List Json → Json
  | obj : List (String × Json) → Json

/-- First-match field lookup on the field list of a JSON object. -/
def jlookup : List (String × Json) → String → Option Json
  | [], _ => none
  | (k, v) :: rest, key => if k = key then some v else jlookup rest key

/-- Option-valued traversal of a list, used to read typed data back out of a
JSON value. -/
def traverseOpt {α β : Type} (f : α → Option β) : List α → Option (List β)
  | [] => some []
  | a :: as => (f a).bind fun b => (traverseOpt f as).map fun bs => b :: bs

/-- A latency mapping as `json.dump` renders it: an object of numbers. -/
def encodeLatencies (l : Latencies) : Json :=
  Json.obj (l.map fun p => (p.1, Json.num p.2))

/-- The `metrics` mapping as `json.dump` renders it: an object of objects. -/
def encodeMetrics (m : Metrics) : Json :=
  Json.obj (m.map fun p => (p.1, encodeLatencies p.2))

/-- Model of `RegressionDetector.save_baseline` (lines 204–220): the JSON object
a JSON object with keys timestamp, threshold and metrics written to
`performance-baseline.json`. -/
def save_baseline (timestamp : String) (threshold : ℚ) (metrics : Metrics) :
    Json :=
  Json.obj [("timestamp", Json.str timestamp),
            ("threshold", Json.num threshold),
            ("metrics", encodeMetrics metrics)]

/-- Reading a numeric field of a latency object back as a percentile entry. -/
def decodeNumField : String × Json → Option (String × ℚ)
  | (k, Json.num q) => some (k, q)
  | _ => none

/-- Reading a latency mapping back out of its JSON value. -/
def decodeLatencies : Json → Option Latencies
  | Json.obj fields => traverseOpt decodeNumField fields
  | _ => none

/-- Reading the metrics mapping back out of its JSON value. -/
def decodeMetrics : Json → Option Metrics
  | Json.obj fields =>
      traverseOpt
        (fun p => (decodeLatencies p.2).map fun l => (p.1, l)) fields
  | _ => none

/-- Model of `RegressionDetector.load_baseline` (lines 59–81) followed by the
`baseline.get("metrics")` access (defaulting to the empty dict) of `compare_metrics` (line 160): parse the
baseline file and read its `metrics` mapping, defaulting to the empty mapping
when the key is absent. -/
def load_baseline_metrics : Json → Option Metrics
  | Json.obj fields =>
      ((jlookup fields "metrics").map decodeMetrics).getD (some [])
  | _ => none

/-! ### Association-list lemmas -/

theorem alookup_isSome_of_mem {α : Type} {l : List (String × α)} {k : String}
    {v : α} (h : (k, v) ∈ l) : (alookup l k).isSome := by
  induction l with
  | nil => simp at h
  | cons p rest ih =>
      obtain ⟨k', v'⟩ := p
      simp only [alookup]
      by_cases hk : k' = k
      · simp [hk]
      · rw [if_neg hk]
        rcases List.mem_cons.mp h with h1 | h1
        · injection h1 with e1 _
          exact absurd e1.symm hk
        · exact ih h1

theorem alookup_assocSet {α : Type} (m : List (String × α)) (k key : String)
    (v : α) :
    alookup (assocSet m k v) key = if k = key then some v else alookup m key := by
  induction m with
  | nil => simp [assocSet, alookup]
  | cons p rest ih =>
      obtain ⟨k', v'⟩ := p
      simp only [assocSet]
      by_cases h1 : k' = k
      · subst h1
        simp only [if_pos rfl, alookup]
        split_ifs <;> rfl
      · rw [if_neg h1]
        simp only [alookup, ih]
        by_cases h2 : k' = key
        · subst h2
          rw [if_pos rfl, if_neg (fun e => h1 e.symm), if_pos rfl]
        · rw [if_neg h2, if_neg h2]

theorem mem_assocSet {α : Type} {m : List (String × α)} {k : String} {v : α}
    {p : String × α} (h : p ∈ assocSet m k v) : p ∈ m ∨ p = (k, v) := by
  induction m with
  | nil => simpa [assocSet] using h
  | cons q rest ih =>
      obtain ⟨k', v'⟩ := q
      simp only [assocSet] at h
      by_cases h1 : k' = k
      · rw [if_pos h1] at h
        rcases List.mem_cons.mp h with h2 | h2
        · right; exact h2
        · left; exact List.mem_cons_of_mem _ h2
      · rw [if_neg h1] at h
        rcases List.mem_cons.mp h with h2 | h2
        · left; exact h2 ▸ List.mem_cons_self _ _
        · rcases ih h2 with h3 | h3
          · left; exact List.mem_cons_of_mem _ h3
          · right; exact h3

/-! ### Shape of the rows produced by the two comparison loops -/

theorem compareRows_spec {B C : MetricSet} {row : ComparisonRow}
    (h : row ∈ compareRows B C) :
    (alookup B row.condition).isSome ∧ (alookup C row.condition).isSome ∧
    0 < row.baselineVal ∧
    row.improvement = (row.baselineVal - row.tunedVal) / row.baselineVal * 100 ∧
    row.status = classifyImprovement row.improvement := by
  simp only [compareRows, List.mem_flatMap] at h
  obtain ⟨p, hp, hrow⟩ := h
  rcases hC : alookup C p.1 with _ | tm
  · simp [condRows, hC] at hrow
  · simp only [condRows, hC, Option.map_some', Option.getD_some,
      List.mem_filterMap] at hrow
    obtain ⟨f, _, heq⟩ := hrow
    by_cases hpos : 0 < (p.2).get f
    · simp only [mkRow] at heq
      rw [if_pos hpos] at heq
      obtain rfl := Option.some.injEq .. ▸ heq
      refine ⟨?_, ?_, hpos, rfl, rfl⟩
      · obtain ⟨c, r⟩ := p
        exact alookup_isSome_of_mem hp
      · rw [hC]; rfl
    · simp only [mkRow] at heq
      rw [if_neg hpos] at heq
      exact absurd heq (by simp)

theorem compare_metrics_spec {T : ℚ} {bm cur : Metrics} {row : RegRow}
    (h : row ∈ compare_metrics T bm cur) :
    (alookup bm row.metricType).isSome ∧ (alookup cur row.metricType).isSome ∧
    row.regression = calculate_regression row.baselineVal row.currentVal ∧
    row.status = regStatus T row.regression := by
  simp only [compare_metrics, List.mem_flatMap] at h
  obtain ⟨p, hp, hrow⟩ := h
  rcases hB : alookup bm p.1 with _ | baseLat
  · simp [typeLines, hB] at hrow
  · simp only [typeLines, hB, Option.map_some', Option.getD_some,
      List.mem_filterMap] at hrow
    obtain ⟨pct, _, heq⟩ := hrow
    rcases h1 : alookup baseLat pct with _ | bv <;> rw [h1] at heq
    · simp [regLine] at heq
    · rcases h2 : alookup p.2 pct with _ | cv <;> rw [h2] at heq
      · simp [regLine] at heq
      · simp only [regLine] at heq
        obtain rfl := Option.some.injEq .. ▸ heq
        refine ⟨?_, ?_, rfl, rfl⟩
        · rw [hB]; rfl
        · obtain ⟨mt, lat⟩ := p
          exact alookup_isSome_of_mem hp

/-- C3: for every percentage-change value, the improvement policy assigns
exactly one label — the excellent label exactly when the change exceeds 20,
the better label exactly on (5, 20], the similar label exactly on (-5, 5],
and the worse label exactly on the catch-all remainder, at most -5. -/
theorem c3_improvement_policy (x : ℚ) :
    (classifyImprovement x = "🚀 Excellent" ↔ 20 < x) ∧
    (classifyImprovement x = "✅ Better" ↔ 5 < x ∧ x ≤ 20) ∧
    (classifyImprovement x = "➖ Similar" ↔ -5 < x ∧ x ≤ 5) ∧
    (classifyImprovement x = "⚠️ Worse" ↔ x ≤ -5) := by
  unfold classifyImprovement
  split_ifs with h1 h2 h3 <;>
    refine ⟨?_, ?_, ?_, ?_⟩ <;> simp_all <;> intros <;> linarith

/-- C1: for every pair of metric sets, every condition present in both, and
every requested field whose baseline value is nonzero (baseline values are
non-negative milliseconds per the data model), the comparison emits a row whose
percentage change equals (baseline - candidate) / baseline * 100 exactly, and
that change is positive exactly when the candidate value is smaller, i.e. the
candidate is faster. -/
theorem c1_change_pct (B C : MetricSet) (cond : String) (bm tm : MetricRecord)
    (f : Field) (hB : (cond, bm) ∈ B) (hC : alookup C cond = some tm)
    (hf : f ∈ compareFields) (hnz : bm.get f ≠ 0) (hnn : 0 ≤ bm.get f) :
    ∃ row ∈ compareRows B C,
      row.condition = cond ∧ row.field = f ∧
      row.baselineVal = bm.get f ∧ row.tunedVal = tm.get f ∧
      row.improvement = (bm.get f - tm.get f) / bm.get f * 100 ∧
      (0 < row.improvement ↔ tm.get f < bm.get f) := by
  have hpos : 0 < bm.get f := lt_of_le_of_ne hnn (Ne.symm hnz)
  refine ⟨⟨cond, f, bm.get f, tm.get f, ((bm.get f - tm.get f) / bm.get f) * 100,
      classifyImprovement (((bm.get f - tm.get f) / bm.get f) * 100)⟩,
      ?_, rfl, rfl, rfl, rfl, rfl, ?_⟩
  · simp only [compareRows, List.mem_flatMap]
    refine ⟨(cond, bm), hB, ?_⟩
    dsimp only [condRows]
    rw [hC]
    simp only [Option.map_some', Option.getD_some, List.mem_filterMap]
    refine ⟨f, hf, ?_⟩
    simp only [mkRow]
    rw [if_pos hpos]
  · simp only
    rw [div_mul_eq_mul_div, lt_div_iff₀ hpos]
    constructor <;> intro h <;> nlinarith

/-- Witness for C1 at a concrete input: baseline Ready P99 is 10000, candidate
Ready P99 is 5000, so a row with change 50 is emitted and the positive change
means the candidate is faster. -/
theorem c1_change_pct_witness :
    ∃ row ∈ compareRows [("Ready", ⟨7000, 9000, 10000, 5000, 12000⟩)]
        [("Ready", ⟨3500, 4500, 5000, 2500, 6000⟩)],
      row.condition = "Ready" ∧ row.field = Field.P99 ∧
      row.baselineVal = (10000 : ℚ) ∧ row.tunedVal = (5000 : ℚ) ∧
      row.improvement = ((10000 : ℚ) - 5000) / 10000 * 100 ∧
      (0 < row.improvement ↔ (5000 : ℚ) < 10000) :=
  c1_change_pct [("Ready", ⟨7000, 9000, 10000, 5000, 12000⟩)]
    [("Ready", ⟨3500, 4500, 5000, 2500, 6000⟩)] "Ready"
    ⟨7000, 9000, 10000, 5000, 12000⟩ ⟨3500, 4500, 5000, 2500, 6000⟩ Field.P99
    (by decide) (by decide) (by decide) (by decide) (by decide)

/-- C2 counterexample: at the regression-detector call site a zero-baseline
pair is NOT absent from the comparison output — with baseline p99 = 0 and
current p99 = 100 the detector emits a comparison line for the pair, carrying
regression 0 and the OK status, instead of omitting it. -/
theorem c2_counterexample :
    RegRow.mk "pod_latency" "p99" 0 100 0 "✅ OK" ∈
      compare_metrics 10 [("pod_latency", [("p99", 0)])]
        [("pod_latency", [("p99", 100)])] := by
  simp only [compare_metrics, List.mem_flatMap]
  refine ⟨("pod_latency", [("p99", 100)]), by simp, ?_⟩
  simp only [typeLines, alookup, if_pos, Option.map_some', Option.getD_some]
  norm_num [List.mem_filterMap]
  refine ⟨"p99", by simp [regPercentiles], ?_⟩
  norm_num [regLine, alookup, calculate_regression, regStatus]

/-- C2 amended: the analyze-performance comparator omits every (condition,
field) pair with a non-positive baseline value, so each emitted row has a
strictly positive baseline; the regression-detector variant instead keeps the
pair, computing regression 0 for a zero baseline, and (for any non-negative
threshold) labels it OK and never records it as a regression. -/
theorem c2_zero_baseline_amended :
    (∀ (B C : MetricSet), ∀ row ∈ compareRows B C, 0 < row.baselineVal) ∧
    (∀ (T : ℚ) (bm cur : Metrics), 0 ≤ T →
      ∀ row ∈ compare_metrics T bm cur, row.baselineVal = 0 →
        row.regression = 0 ∧ row.status = "✅ OK" ∧
        row ∉ regressions_found T bm cur) := by
  constructor
  · intro B C row hrow
    exact (compareRows_spec hrow).2.2.1
  · intro T bm cur hT row hrow hzero
    obtain ⟨-, -, hreg, hstat⟩ := compare_metrics_spec hrow
    have h0 : row.regression = 0 := by
      rw [hreg, hzero, calculate_regression, if_pos rfl]
    refine ⟨h0, ?_, ?_⟩
    · rw [hstat, h0, regStatus]
      rw [if_neg (by simpa using hT), if_neg (by simp; positivity),
        if_neg (by norm_num)]
    · intro hmem
      rw [regressions_found, List.mem_filter] at hmem
      have := hmem.2
      rw [h0] at this
      simp at this
      linarith

/-- Witness for the amended C2: a concrete positive-baseline row of the
analyze-performance comparator, and the concrete zero-baseline line of the
detector shown to carry regression 0, status OK, and to be excluded from the
recorded regressions. -/
theorem c2_zero_baseline_amended_witness :
    (0 : ℚ) <
      (ComparisonRow.mk "Ready" Field.P50 1 1 0 "➖ Similar").baselineVal ∧
    ((RegRow.mk "pod_latency" "p99" 0 100 0 "✅ OK").regression = 0 ∧
      (RegRow.mk "pod_latency" "p99" 0 100 0 "✅ OK").status = "✅ OK" ∧
      RegRow.mk "pod_latency" "p99" 0 100 0 "✅ OK" ∉
        regressions_found 10 [("pod_latency", [("p99", 0)])]
          [("pod_latency", [("p99", 100)])]) :=
  ⟨c2_zero_baseline_amended.1 [("Ready", ⟨1, 1, 1, 1, 1⟩)]
      [("Ready", ⟨1, 1, 1, 1, 1⟩)]
      (ComparisonRow.mk "Ready" Field.P50 1 1 0 "➖ Similar")
      (by
        simp only [compareRows, List.mem_flatMap]
        refine ⟨("Ready", ⟨1, 1, 1, 1, 1⟩), by simp, ?_⟩
        simp only [condRows, alookup, if_pos, Option.map_some',
          Option.getD_some]
        norm_num [List.mem_filterMap]
        refine ⟨Field.P50, by simp [compareFields], ?_⟩
        norm_num [mkRow, MetricRecord.get, classifyImprovement]),
    c2_zero_baseline_amended.2 10 [("pod_latency", [("p99", 0)])]
      [("pod_latency", [("p99", 100)])] (by norm_num)
      (RegRow.mk "pod_latency" "p99" 0 100 0 "✅ OK")
      (by
        simp only [compare_metrics, List.mem_flatMap]
        refine ⟨("pod_latency", [("p99", 100)]), by simp, ?_⟩
        simp only [typeLines, alookup, if_pos, Option.map_some',
          Option.getD_some]
        norm_num [List.mem_filterMap]
        refine ⟨"p99", by simp [regPercentiles], ?_⟩
        norm_num [regLine, alookup, calculate_regression, regStatus])
      rfl⟩

theorem regStatus_regression_iff (T r : ℚ) :
    regStatus T r = "🚨 REGRESSION" ↔ T < r := by
  unfold regStatus
  split_ifs with h1 h2 h3 <;> simp_all

/-- C4: a comparison line of the regression detector is classified and
recorded as a regression exactly when its change percentage strictly exceeds
the threshold; in particular, with threshold 10, a change of 15 is classified
as a regression and a change of 5 as OK. -/
theorem c4_regression_threshold (T : ℚ) (bm cur : Metrics) (row : RegRow)
    (h : row ∈ compare_metrics T bm cur) :
    ((row.status = "🚨 REGRESSION" ∧ row ∈ regressions_found T bm cur) ↔
      T < row.regression) ∧
    regStatus 10 15 = "🚨 REGRESSION" ∧ regStatus 10 5 = "✅ OK" := by
  obtain ⟨-, -, -, hstat⟩ := compare_metrics_spec h
  refine ⟨⟨fun hc => ?_, fun hr => ?_⟩, by norm_num [regStatus],
    by norm_num [regStatus]⟩
  · exact (regStatus_regression_iff T row.regression).mp
      (hstat.symm.trans hc.1)
  · refine ⟨hstat.trans ((regStatus_regression_iff T row.regression).mpr hr),
      ?_⟩
    rw [regressions_found, List.mem_filter]
    exact ⟨h, by simpa using hr⟩

/-- Witness for C4 at a concrete input: baseline p99 100, current p99 115,
giving regression 15 with threshold 10 — classified and recorded as a
regression. -/
theorem c4_regression_threshold_witness :
    (((RegRow.mk "pod_latency" "p99" 100 115 15 "🚨 REGRESSION").status =
          "🚨 REGRESSION" ∧
        RegRow.mk "pod_latency" "p99" 100 115 15 "🚨 REGRESSION" ∈
          regressions_found 10 [("pod_latency", [("p99", 100)])]
            [("pod_latency", [("p99", 115)])]) ↔
      (10 : ℚ) <
        (RegRow.mk "pod_latency" "p99" 100 115 15 "🚨 REGRESSION").regression) ∧
    regStatus 10 15 = "🚨 REGRESSION" ∧ regStatus 10 5 = "✅ OK" :=
  c4_regression_threshold 10 [("pod_latency", [("p99", 100)])]
    [("pod_latency", [("p99", 115)])]
    (RegRow.mk "pod_latency" "p99" 100 115 15 "🚨 REGRESSION")
    (by
      simp only [compare_metrics, List.mem_flatMap]
      refine ⟨("pod_latency", [("p99", 115)]), by simp, ?_⟩
      simp only [typeLines, alookup, if_pos, Option.map_some',
        Option.getD_some]
      norm_num [List.mem_filterMap]
      refine ⟨"p99", by simp [regPercentiles], ?_⟩
      norm_num [regLine, alookup, calculate_regression, regStatus])

/-- C5 fails on the code: with a baseline whose `Ready` record has P99 = 0
(which arises whenever the P99 field is missing from the measurement file,
since missing fields default to 0), the Key Improvements block of
`compare_tests` divides by that zero baseline value with no guard and the
call aborts with a `ZeroDivisionError` — modelled as `none` — instead of
omitting the pair. -/
theorem c5_key_improvements_zero_division :
    compare_tests [("Ready", ⟨100, 200, 0, 50, 300⟩)]
        [("Ready", ⟨90, 180, 250, 45, 280⟩)] = none := by
  norm_num [compare_tests, keyImprovements, keyPair, alookup]

/-- C7: every row emitted by the analyze-performance comparison names a
condition present in both metric sets, and every line emitted by the
regression detector names a metric type present in both the baseline and the
current metrics — a key present on only one side yields no entry. -/
theorem c7_intersection_only :
    (∀ (B C : MetricSet), ∀ row ∈ compareRows B C,
        (alookup B row.condition).isSome ∧
        (alookup C row.condition).isSome) ∧
    (∀ (T : ℚ) (bm cur : Metrics), ∀ row ∈ compare_metrics T bm cur,
        (alookup bm row.metricType).isSome ∧
        (alookup cur row.metricType).isSome) := by
  constructor
  · intro B C row h
    exact ⟨(compareRows_spec h).1, (compareRows_spec h).2.1⟩
  · intro T bm cur row h
    exact ⟨(compare_metrics_spec h).1, (compare_metrics_spec h).2.1⟩

/-- Witness for C7 at concrete inputs: the condition and metric type of the
emitted rows are looked up successfully on both sides. -/
theorem c7_intersection_only_witness :
    ((alookup [("Ready", MetricRecord.mk 1 1 1 1 1)]
        (ComparisonRow.mk "Ready" Field.P50 1 1 0 "➖ Similar").condition).isSome ∧
      (alookup [("Ready", MetricRecord.mk 1 1 1 1 1)]
        (ComparisonRow.mk "Ready" Field.P50 1 1 0 "➖ Similar").condition).isSome) ∧
    ((alookup [("pod_latency", [("p99", (100 : ℚ))])]
        (RegRow.mk "pod_latency" "p99" 100 115 15 "🚨 REGRESSION").metricType).isSome ∧
      (alookup [("pod_latency", [("p99", (115 : ℚ))])]
        (RegRow.mk "pod_latency" "p99" 100 115 15 "🚨 REGRESSION").metricType).isSome) :=
  ⟨c7_intersection_only.1 [("Ready", MetricRecord.mk 1 1 1 1 1)]
      [("Ready", MetricRecord.mk 1 1 1 1 1)]
      (ComparisonRow.mk "Ready" Field.P50 1 1 0 "➖ Similar")
      (by
        simp only [compareRows, List.mem_flatMap]
        refine ⟨("Ready", ⟨1, 1, 1, 1, 1⟩), by simp, ?_⟩
        simp only [condRows, alookup, if_pos, Option.map_some',
          Option.getD_some]
        norm_num [List.mem_filterMap]
        refine ⟨Field.P50, by simp [compareFields], ?_⟩
        norm_num [mkRow, MetricRecord.get, classifyImprovement]),
    c7_intersection_only.2 10 [("pod_latency", [("p99", 100)])]
      [("pod_latency", [("p99", 115)])]
      (RegRow.mk "pod_latency" "p99" 100 115 15 "🚨 REGRESSION")
      (by
        simp only [compare_metrics, List.mem_flatMap]
        refine ⟨("pod_latency", [("p99", 115)]), by simp, ?_⟩
        simp only [typeLines, alookup, if_pos, Option.map_some',
          Option.getD_some]
        norm_num [List.mem_filterMap]
        refine ⟨"p99", by simp [regPercentiles], ?_⟩
        norm_num [regLine, alookup, calculate_regression, regStatus])⟩

/-- C9: the detector process exits with code 0 exactly when current metrics
were loaded and either they were saved as the new baseline or a baseline was
present and the comparison recorded no regression; in every other case —
missing metrics, missing baseline, or at least one recorded regression — the
exit code is 1. -/
theorem c9_exit_code (T : ℚ) (cur : Metrics) (sf : Bool)
    (bl : Option Metrics) :
    (exit_code T cur sf bl = 0 ↔
      cur ≠ [] ∧ (sf = true ∨ ∃ bm, bl = some bm ∧
        regressions_found T bm cur = [])) ∧
    (exit_code T cur sf bl = 0 ∨ exit_code T cur sf bl = 1) := by
  unfold exit_code run_detection
  rcases bl with _ | bm <;> rcases sf <;>
    split_ifs <;> simp_all

theorem traverseOpt_map_of_inverse {α β : Type} {f : β → Option α}
    {g : α → β} (h : ∀ a, f (g a) = some a) (l : List α) :
    traverseOpt f (l.map g) = some l := by
  induction l with
  | nil => rfl
  | cons a as ih => simp [traverseOpt, h, ih]

/-- C6: writing the baseline structure (timestamp, threshold, metrics) with
`save_baseline` and reading the metrics mapping back with `load_baseline`
reproduces the original metrics mapping exactly. -/
theorem c6_round_trip (ts : String) (th : ℚ) (m : Metrics) :
    load_baseline_metrics (save_baseline ts th m) = some m := by
  have hnum : ∀ p : String × ℚ, decodeNumField (p.1, Json.num p.2) = some p := by
    intro p
    obtain ⟨k, v⟩ := p
    rfl
  have hlat : ∀ l : Latencies,
      decodeLatencies (encodeLatencies l) = some l := by
    intro l
    simp only [encodeLatencies, decodeLatencies]
    exact traverseOpt_map_of_inverse hnum l
  have hmet : decodeMetrics (encodeMetrics m) = some m := by
    simp only [encodeMetrics, decodeMetrics]
    refine traverseOpt_map_of_inverse ?_ m
    intro p
    obtain ⟨k, l⟩ := p
    simp [hlat]
  simp only [save_baseline, load_baseline_metrics, jlookup]
  rw [if_neg (by decide), if_neg (by decide)]
  simp [hmet]

theorem alookup_insertItem_isSome {m : MetricSet} {key : String}
    (it : RawItem) (h : (alookup m key).isSome) :
    (alookup (insertItem m it) key).isSome := by
  unfold insertItem
  split_ifs with h1
  · exact h
  · rw [alookup_assocSet]
    split_ifs with h2
    · simp
    · exact h

theorem alookup_loadFile_isSome {items : List RawItem} {m : MetricSet}
    {key : String} (h : (alookup m key).isSome) :
    (alookup (loadFile m items) key).isSome := by
  induction items generalizing m with
  | nil => exact h
  | cons it rest ih =>
      rw [loadFile, List.foldl_cons]
      exact ih (alookup_insertItem_isSome it h)

theorem alookup_loadFile_isSome_of_mem {items : List RawItem} {m : MetricSet}
    {it : RawItem} (hi : it ∈ items) (hq : it.quantileName ≠ "") :
    (alookup (loadFile m items) it.quantileName).isSome := by
  induction items generalizing m with
  | nil => simp at hi
  | cons a rest ih =>
      rw [loadFile, List.foldl_cons]
      rcases List.mem_cons.mp hi with h | h
      · subst h
        apply alookup_loadFile_isSome
        unfold insertItem
        rw [if_neg hq, alookup_assocSet, if_pos rfl]
        rfl
      · exact ih h

theorem alookup_foldl_loadFile_isSome {files : List (List RawItem)}
    {m : MetricSet} {key : String} (h : (alookup m key).isSome) :
    (alookup (files.foldl loadFile m) key).isSome := by
  induction files generalizing m with
  | nil => exact h
  | cons g rest ih =>
      rw [List.foldl_cons]
      exact ih (alookup_loadFile_isSome h)

theorem alookup_load_metrics_isSome {files : List (List RawItem)}
    {m : MetricSet} {f : List RawItem} {it : RawItem} (hf : f ∈ files)
    (hi : it ∈ f) (hq : it.quantileName ≠ "") :
    (alookup (files.foldl loadFile m) it.quantileName).isSome := by
  induction files generalizing m with
  | nil => simp at hf
  | cons g rest ih =>
      rw [List.foldl_cons]
      rcases List.mem_cons.mp hf with h | h
      · subst h
        exact alookup_foldl_loadFile_isSome
          (alookup_loadFile_isSome_of_mem hi hq)
      · exact ih h

/-- C8 counterexample: with two matching files, one contributing condition
PodScheduled and the other contributing condition Ready, the MetricSet loaded
by `load_metrics` contains both conditions and differs from what either file
alone would produce — so no single file determines the result and entries ARE
merged across files. -/
theorem c8_counterexample :
    load_metrics [[⟨"PodScheduled", ⟨1, 2, 3, 4, 5⟩⟩],
        [⟨"Ready", ⟨6, 7, 8, 9, 10⟩⟩]] ≠
      load_metrics [[⟨"PodScheduled", ⟨1, 2, 3, 4, 5⟩⟩]] ∧
    load_metrics [[⟨"PodScheduled", ⟨1, 2, 3, 4, 5⟩⟩],
        [⟨"Ready", ⟨6, 7, 8, 9, 10⟩⟩]] ≠
      load_metrics [[⟨"Ready", ⟨6, 7, 8, 9, 10⟩⟩]] ∧
    (alookup (load_metrics [[⟨"PodScheduled", ⟨1, 2, 3, 4, 5⟩⟩],
        [⟨"Ready", ⟨6, 7, 8, 9, 10⟩⟩]]) "PodScheduled").isSome ∧
    (alookup (load_metrics [[⟨"PodScheduled", ⟨1, 2, 3, 4, 5⟩⟩],
        [⟨"Ready", ⟨6, 7, 8, 9, 10⟩⟩]]) "Ready").isSome := by
  decide

theorem pyMax_spec {α : Type} (rest : List (ℕ × α)) :
    ∀ first : ℕ × α,
      pyMax first rest ∈ first :: rest ∧
      ∀ g ∈ first :: rest, g.1 ≤ (pyMax first rest).1 := by
  induction rest with
  | nil =>
      intro first
      refine ⟨List.mem_cons_self _ _, ?_⟩
      intro g hg
      rcases List.mem_cons.mp hg with h | h
      · exact le_of_eq (congrArg Prod.fst h)
      · simp at h
  | cons a rest ih =>
      intro first
      have hfold : pyMax first (a :: rest) =
          pyMax (if first.1 < a.1 then a else first) rest := rfl
      obtain ⟨hmem, hbound⟩ := ih (if first.1 < a.1 then a else first)
      constructor
      · rw [hfold]
        rcases List.mem_cons.mp hmem with h | h
        · rw [h]
          split_ifs
          · exact List.mem_cons_of_mem _ (List.mem_cons_self _ _)
          · exact List.mem_cons_self _ _
        · exact List.mem_cons_of_mem _ (List.mem_cons_of_mem _ h)
      · intro g hg
        rw [hfold]
        have hsel : first.1 ≤ (if first.1 < a.1 then a else first).1 ∧
            a.1 ≤ (if first.1 < a.1 then a else first).1 := by
          split_ifs with hlt
          · exact ⟨le_of_lt hlt, le_refl _⟩
          · exact ⟨le_refl _, le_of_not_lt hlt⟩
        have htop := hbound _ (List.mem_cons_self _ _)
        rcases List.mem_cons.mp hg with h | h
        · exact le_trans (le_of_eq (congrArg Prod.fst h))
            (le_trans hsel.1 htop)
        · rcases List.mem_cons.mp h with h2 | h2
          · exact le_trans (le_of_eq (congrArg Prod.fst h2))
              (le_trans hsel.2 htop)
          · exact hbound g (List.mem_cons_of_mem _ h2)

/-- C8 amended: the `load_metrics` loop of analyze-performance folds EVERY
matching file into one mapping — each item with a truthy `quantileName` in
any matching file yields an entry for that condition in the resulting
MetricSet (later files overwriting earlier ones per condition name); the
regression detector instead selects exactly one matching file — the most
recently modified, a member of the match list with maximal mtime — and
extracts only from its contents; and the VMI analyzer reads only the first
glob match, its result independent of every other matching file. -/
theorem c8_merge_amended :
    (∀ (files : List (List RawItem)) (f : List RawItem) (it : RawItem),
        f ∈ files → it ∈ f → it.quantileName ≠ "" →
        (alookup (load_metrics files) it.quantileName).isSome) ∧
    (∀ (first : ℕ × List MeasurementItem)
        (rest : List (ℕ × List MeasurementItem)),
        load_current_type (first :: rest) =
          loadMetricType (pyMax first rest).2 ∧
        pyMax first rest ∈ first :: rest ∧
        ∀ g ∈ first :: rest, g.1 ≤ (pyMax first rest).1) ∧
    (∀ (f : List RawItem) (rest rest' : List (List RawItem)),
        load_vmi_metrics (f :: rest) = loadFile [] f ∧
        load_vmi_metrics (f :: rest) = load_vmi_metrics (f :: rest')) :=
  ⟨fun _ _ _ hf hi hq => alookup_load_metrics_isSome hf hi hq,
    fun first rest =>
      ⟨rfl, (pyMax_spec rest first).1, (pyMax_spec rest first).2⟩,
    fun _ _ _ => ⟨rfl, rfl⟩⟩

/-- Witness for the amended C8 at concrete inputs: the Ready item of the
second matching file is present in the MetricSet loaded by `load_metrics`;
with two detector files of mtimes 5 and 9 the extraction reads the selected
file, which is a member of the match list whose mtime bounds the mtime 9
file; and the VMI load of two files equals the single-file load of the first
and ignores a change to the second. -/
theorem c8_merge_amended_witness :
    (alookup (load_metrics [[⟨"PodScheduled", ⟨1, 2, 3, 4, 5⟩⟩],
        [⟨"Ready", ⟨6, 7, 8, 9, 10⟩⟩]])
      (RawItem.mk "Ready" ⟨6, 7, 8, 9, 10⟩).quantileName).isSome ∧
    (load_current_type [((5 : ℕ), [(⟨some "P99", some 120, none, none, none⟩ : MeasurementItem)]),
        ((9 : ℕ), [(⟨some "P99", some 150, none, none, none⟩ : MeasurementItem)])] =
      loadMetricType (pyMax ((5 : ℕ), [(⟨some "P99", some 120, none, none, none⟩ : MeasurementItem)])
        [((9 : ℕ), [(⟨some "P99", some 150, none, none, none⟩ : MeasurementItem)])]).2 ∧
      pyMax ((5 : ℕ), [(⟨some "P99", some 120, none, none, none⟩ : MeasurementItem)])
        [((9 : ℕ), [(⟨some "P99", some 150, none, none, none⟩ : MeasurementItem)])] ∈
        [((5 : ℕ), [(⟨some "P99", some 120, none, none, none⟩ : MeasurementItem)]),
         ((9 : ℕ), [(⟨some "P99", some 150, none, none, none⟩ : MeasurementItem)])] ∧
      ((9 : ℕ), [(⟨some "P99", some 150, none, none, none⟩ :
          MeasurementItem)]).1 ≤
        (pyMax ((5 : ℕ), [(⟨some "P99", some 120, none, none, none⟩ : MeasurementItem)])
          [((9 : ℕ), [(⟨some "P99", some 150, none, none, none⟩ : MeasurementItem)])]).1) ∧
    (load_vmi_metrics [[⟨"VMIRunning", ⟨1, 2, 3, 4, 5⟩⟩],
        [⟨"VMIScheduled", ⟨6, 7, 8, 9, 10⟩⟩]] =
      loadFile [] [⟨"VMIRunning", ⟨1, 2, 3, 4, 5⟩⟩] ∧
      load_vmi_metrics [[⟨"VMIRunning", ⟨1, 2, 3, 4, 5⟩⟩],
          [⟨"VMIScheduled", ⟨6, 7, 8, 9, 10⟩⟩]] =
        load_vmi_metrics [[⟨"VMIRunning", ⟨1, 2, 3, 4, 5⟩⟩],
          [⟨"VMIReady", ⟨11, 12, 13, 14, 15⟩⟩]]) :=
  ⟨c8_merge_amended.1
      [[⟨"PodScheduled", ⟨1, 2, 3, 4, 5⟩⟩], [⟨"Ready", ⟨6, 7, 8, 9, 10⟩⟩]]
      [⟨"Ready", ⟨6, 7, 8, 9, 10⟩⟩] (RawItem.mk "Ready" ⟨6, 7, 8, 9, 10⟩)
      (by decide) (by decide) (by decide),
    ⟨(c8_merge_amended.2.1 ((5 : ℕ), [(⟨some "P99", some 120, none, none, none⟩ : MeasurementItem)])
        [((9 : ℕ), [(⟨some "P99", some 150, none, none, none⟩ : MeasurementItem)])]).1,
      (c8_merge_amended.2.1 ((5 : ℕ), [(⟨some "P99", some 120, none, none, none⟩ : MeasurementItem)])
        [((9 : ℕ), [(⟨some "P99", some 150, none, none, none⟩ : MeasurementItem)])]).2.1,
      (c8_merge_amended.2.1 ((5 : ℕ), [(⟨some "P99", some 120, none, none, none⟩ : MeasurementItem)])
        [((9 : ℕ), [(⟨some "P99", some 150, none, none, none⟩ : MeasurementItem)])]).2.2
        ((9 : ℕ), [(⟨some "P99", some 150, none, none, none⟩ :
          MeasurementItem)]) (by decide)⟩,
    c8_merge_amended.2.2 [⟨"VMIRunning", ⟨1, 2, 3, 4, 5⟩⟩]
      [[⟨"VMIScheduled", ⟨6, 7, 8, 9, 10⟩⟩]]
      [[⟨"VMIReady", ⟨11, 12, 13, 14, 15⟩⟩]]⟩

theorem extractStep_no_match {item : MeasurementItem} (lat : Latencies)
    (h : item.quantileName.all (fun qn => !percentileMatch qn) = true) :
    extractStep lat item = lat := by
  obtain ⟨oqn, oval, a, b, c⟩ := item
  cases oqn with
  | none => rfl
  | some qn =>
      simp only [Option.all_some, percentileMatch, Bool.not_eq_true',
        Bool.or_eq_false_iff] at h
      simp only [extractStep]
      rw [if_neg (by simp [h.1.1]), if_neg (by simp [h.1.2]),
        if_neg (by simp [h.2])]

theorem extract_foldl_no_match (items : List MeasurementItem) :
    (∀ it ∈ items,
        it.quantileName.all (fun qn => !percentileMatch qn) = true) →
      ∀ acc : Latencies, items.foldl extractStep acc = acc := by
  induction items with
  | nil =>
      intro _ _
      rfl
  | cons a rest ih =>
      intro h acc
      rw [List.foldl_cons,
        extractStep_no_match acc (h a (List.mem_cons_self a rest))]
      exact ih (fun it hit => h it (List.mem_cons_of_mem a hit)) acc

theorem mem_extract_foldl {items : List MeasurementItem} :
    ∀ {acc : Latencies} {pr : String × ℚ}, pr ∈ items.foldl extractStep acc →
      pr ∈ acc ∨ ∃ it ∈ items,
        it.quantileName.any percentileMatch = true ∧
        pr.2 = it.value.getD 0 := by
  induction items with
  | nil =>
      intro acc pr h
      left
      exact h
  | cons a rest ih =>
      intro acc pr h
      rw [List.foldl_cons] at h
      rcases ih h with h1 | h1
      · obtain ⟨oqn, oval, x, y, z⟩ := a
        cases oqn with
        | none =>
            left
            exact h1
        | some qn =>
            simp only [extractStep] at h1
            by_cases h99 : pyContains "P99" qn
            · rw [if_pos h99] at h1
              rcases mem_assocSet h1 with h2 | h2
              · left; exact h2
              · right
                refine ⟨⟨some qn, oval, x, y, z⟩, List.mem_cons_self .., ?_, ?_⟩
                · simp [percentileMatch, h99]
                · rw [h2]
            · rw [if_neg h99] at h1
              by_cases h95 : pyContains "P95" qn
              · rw [if_pos h95] at h1
                rcases mem_assocSet h1 with h2 | h2
                · left; exact h2
                · right
                  refine ⟨⟨some qn, oval, x, y, z⟩, List.mem_cons_self .., ?_, ?_⟩
                  · simp [percentileMatch, h95]
                  · rw [h2]
              · rw [if_neg h95] at h1
                by_cases h50 : pyContains "P50" qn
                · rw [if_pos h50] at h1
                  rcases mem_assocSet h1 with h2 | h2
                  · left; exact h2
                  · right
                    refine ⟨⟨some qn, oval, x, y, z⟩, List.mem_cons_self .., ?_, ?_⟩
                    · simp [percentileMatch, h50]
                    · rw [h2]
                · rw [if_neg h50] at h1
                  left
                  exact h1
      · right
        obtain ⟨it, hit, hrest⟩ := h1
        exact ⟨it, List.mem_cons_of_mem _ hit, hrest⟩

/-- C10: every latency value extracted by the detector from a list-format
input comes from the `value` field (defaulting to 0) of an item whose
`quantileName` contains P99, P95 or P50 as a substring; consequently, for a
list in the documented input format — `quantileName` holding a condition name
such as Ready or PodScheduled and the percentiles carried in the P50/P95/P99
fields — the extraction returns the empty latency mapping and the metric type
is excluded from the current metrics. -/
theorem c10_extraction (items : List MeasurementItem) :
    (∀ pr ∈ extract_latency_metrics items, ∃ it ∈ items,
        it.quantileName.any percentileMatch = true ∧
        pr.2 = it.value.getD 0) ∧
    ((∀ it ∈ items,
        it.quantileName.all (fun qn => !percentileMatch qn) = true) →
      extract_latency_metrics items = [] ∧ loadMetricType items = none) := by
  constructor
  · intro pr hpr
    rcases mem_extract_foldl hpr with h | h
    · simp at h
    · exact h
  · intro h
    have he : extract_latency_metrics items = [] :=
      extract_foldl_no_match items h []
    refine ⟨he, ?_⟩
    simp [loadMetricType, he]

/-- Witness for C10 at a concrete documented-format input: two items with
condition names PodScheduled and Ready, percentiles in the P50/P95/P99 fields
and no `value` field — the extraction is empty and the metric type is
dropped. -/
theorem c10_extraction_witness :
    extract_latency_metrics
        [⟨some "PodScheduled", none, some 10, some 20, some 30⟩,
         ⟨some "Ready", none, some 100, some 200, some 300⟩] = [] ∧
      loadMetricType
        [⟨some "PodScheduled", none, some 10, some 20, some 30⟩,
         ⟨some "Ready", none, some 100, some 200, some 300⟩] = none :=
  (c10_extraction
    [⟨some "PodScheduled", none, some 10, some 20, some 30⟩,
     ⟨some "Ready", none, some 100, some 200, some 300⟩]).2 (by decide)

end Workshop
